import Mathlib

/-!
Verification of the static partition-configuration descriptors of the
Minervasys Jailhouse tree (`configs/arm64/zynqmp-kv260.c` for the Xilinx
ZynqMP KV260 board and the RK3566/RK3568 board file) against the
descriptor schema, validator invariants and codec laws of the
partition-configuration specification.

The two board files are pure data: packed C initialisers for
`struct jailhouse_system` plus the per-board arrays of memory regions,
interrupt-chip descriptors and PCI devices.  They are embedded here as
Lean structure values, field by field.  The validator and the
encoder/decoder described by the specification have no implementation in
the repository, so they are modelled from the specification's words; each
such definition says so in its doc comment.
-/

namespace Jailhouse

/-- Memory permission flag `JAILHOUSE_MEM_READ` (bit 0), as in the Jailhouse
configuration header. -/
def JAILHOUSE_MEM_READ : Nat := 0x0001

/-- Memory permission flag `JAILHOUSE_MEM_WRITE` (bit 1). -/
def JAILHOUSE_MEM_WRITE : Nat := 0x0002

/-- Memory permission flag `JAILHOUSE_MEM_EXECUTE` (bit 2). -/
def JAILHOUSE_MEM_EXECUTE : Nat := 0x0004

/-- Memory permission flag `JAILHOUSE_MEM_DMA` (bit 3). -/
def JAILHOUSE_MEM_DMA : Nat := 0x0008

/-- Memory permission flag for I/O memory, `JAILHOUSE_MEM_IO` in the source
(bit 4); the name carries a `_BIT` suffix here. -/
def JAILHOUSE_MEM_IO_BIT : Nat := 0x0010

/-- Memory permission flag `JAILHOUSE_MEM_COMM_REGION` (bit 5). -/
def JAILHOUSE_MEM_COMM_REGION : Nat := 0x0020

/-- Memory permission flag `JAILHOUSE_MEM_LOADABLE` (bit 6). -/
def JAILHOUSE_MEM_LOADABLE : Nat := 0x0040

/-- Memory permission flag `JAILHOUSE_MEM_ROOTSHARED` (bit 7): the region is
an intentional alias shared with the root cell. -/
def JAILHOUSE_MEM_ROOTSHARED : Nat := 0x0080

/-- Header flag `JAILHOUSE_SYS_VIRTUAL_DEBUG_CONSOLE`. -/
def JAILHOUSE_SYS_VIRTUAL_DEBUG_CONSOLE : Nat := 0x0001

/-- Console type tag `JAILHOUSE_CON_TYPE_8250` (RK3568 uart2).  The numeric
value of the enum constant is not part of the two source files; a fixed
distinct value is chosen. -/
def JAILHOUSE_CON_TYPE_8250 : Nat := 2

/-- Console type tag `JAILHOUSE_CON_TYPE_XUARTPS` (ZynqMP).  The numeric
value of the enum constant is not part of the two source files; a fixed
distinct value is chosen. -/
def JAILHOUSE_CON_TYPE_XUARTPS : Nat := 6

/-- Console access flag for memory-mapped register access,
`JAILHOUSE_CON_ACCESS_MMIO` in the source; the name carries a `_BIT`
suffix here. -/
def JAILHOUSE_CON_ACCESS_MMIO_BIT : Nat := 0x0001

/-- Console flag `JAILHOUSE_CON_REGDIST_4` (registers 4 bytes apart). -/
def JAILHOUSE_CON_REGDIST_4 : Nat := 0x0002

/-- PCI device type tag `JAILHOUSE_PCI_TYPE_IVSHMEM`. -/
def JAILHOUSE_PCI_TYPE_IVSHMEM : Nat := 3

/-- Shared-memory protocol tag `JAILHOUSE_SHMEM_PROTO_UNDEFINED`. -/
def JAILHOUSE_SHMEM_PROTO_UNDEFINED : Nat := 0x0000

/-- Shared-memory protocol tag `JAILHOUSE_SHMEM_PROTO_VETH`. -/
def JAILHOUSE_SHMEM_PROTO_VETH : Nat := 0x0001

/-- BAR mask constant `JAILHOUSE_IVSHMEM_BAR_MASK_INTX` used by both boards;
its concrete value does not matter to any invariant checked here and it is
modelled as a fixed word. -/
def JAILHOUSE_IVSHMEM_BAR_MASK_INTX : Nat := 0xfffff000

/-- Minimum page granularity of the arm64 platforms (4 KiB). -/
def PAGE_SIZE : Nat := 0x1000

/-- Memory region record, after `struct jailhouse_memory`: physical start,
virtual start, size, and permission flags.  The hypervisor memory reservation
of the header reuses the same record with only `phys_start` and `size` set,
exactly as the C initialisers do. -/
structure MemoryRegion where
  phys_start : Nat
  virt_start : Nat
  size : Nat
  flags : Nat
deriving DecidableEq

/-- Debug console record, after `struct jailhouse_console`. -/
structure Console where
  address : Nat
  size : Nat
  type : Nat
  flags : Nat
deriving DecidableEq

/-- Interrupt chip record, after `struct jailhouse_irqchip`: controller MMIO
address, first pin covered, and the fixed 4-word (128-pin) assignment
bitmap. -/
structure IrqChip where
  address : Nat
  pin_base : Nat
  pin_bitmap : List Nat
deriving DecidableEq

/-- PCI device record, after `struct jailhouse_pci_device`, restricted to the
fields the two board files initialise. -/
structure PciDevice where
  type : Nat
  domain : Nat
  bdf : Nat
  bar_mask : Nat
  shmem_regions_start : Nat
  shmem_dev_id : Nat
  shmem_peers : Nat
  shmem_protocol : Nat
deriving DecidableEq

/-- ARM GIC platform parameters, after the `.arm` member of
`struct jailhouse_system`'s platform info.  Fields a board leaves out of its
initialiser are zero, as in C. -/
structure ArmParams where
  maintenance_irq : Nat
  gic_version : Nat
  gicd_base : Nat
  gicr_base : Nat
  gicc_base : Nat
  gich_base : Nat
  gicv_base : Nat
deriving DecidableEq

/-- Memguard parameters, after the `.memguard` member: total interrupt count
of the platform, hypervisor timer interrupt, and the per-CPU PMU interrupt
list.  The ZynqMP priority-threshold fields are not referenced by any claim
and are left out of the model. -/
structure MemguardParams where
  num_irqs : Nat
  hv_timer : Nat
  num_pmu_irq : Nat
  pmu_cpu_irq : List Nat
deriving DecidableEq

/-- Platform information, after the `.platform_info` member, restricted to
the fields the claims reference (the ZynqMP IOMMU, cache-coloring and QoS
aperture members are not modelled). -/
structure PlatformInfo where
  pci_mmconfig_base : Nat
  pci_mmconfig_end_bus : Nat
  pci_is_virtual : Nat
  pci_domain : Nat
  arm : ArmParams
  memguard : MemguardParams
deriving DecidableEq

/-- System descriptor: the root-cell configuration aggregate built by each
board file (header flags, hypervisor reservation, console, platform info,
root-cell virtual-PCI interrupt base, CPU set, and the per-board arrays).
The ZynqMP stream-id and QoS-device arrays are not referenced by any claim
and are left out of the model.  The root cell's declared counts
(`num_memory_regions` and friends) are `ARRAY_SIZE` of the arrays in both
board files, hence list lengths here. -/
structure SystemDescriptor where
  flags : Nat
  hypervisor_memory : MemoryRegion
  debug_console : Console
  platform_info : PlatformInfo
  vpci_irq_base : Nat
  cpus : List Nat
  mem_regions : List MemoryRegion
  irqchips : List IrqChip
  pci_devices : List PciDevice
deriving DecidableEq

/-- Declared memory-region count of the root cell,
`.num_memory_regions = ARRAY_SIZE(config.mem_regions)` in both boards. -/
def SystemDescriptor.num_memory_regions (d : SystemDescriptor) : Nat :=
  d.mem_regions.length

/-- Declared interrupt-chip count of the root cell. -/
def SystemDescriptor.num_irqchips (d : SystemDescriptor) : Nat :=
  d.irqchips.length

/-- Declared PCI-device count of the root cell. -/
def SystemDescriptor.num_pci_devices (d : SystemDescriptor) : Nat :=
  d.pci_devices.length

/-- Modelled from the spec: the `JAILHOUSE_SHMEM_NET_REGIONS(start, dev_id)`
macro of the Jailhouse configuration header is not among the source files;
the specification describes it as the fixed 4-region layout of a 2-peer
shared-memory link (state table, read-write section, and one output section
per peer), and the RK3568 board comments give its total span as four regions
of 1 MiB overall.  All four regions carry the ROOTSHARED flag; the output
section of peer `dev_id` is the writable one. -/
def JAILHOUSE_SHMEM_NET_REGIONS (start dev_id : Nat) : List MemoryRegion :=
  [ { phys_start := start, virt_start := start, size := 0x1000,
      flags := JAILHOUSE_MEM_READ ||| JAILHOUSE_MEM_ROOTSHARED },
    { phys_start := start + 0x1000, virt_start := start + 0x1000, size := 0x7f000,
      flags := JAILHOUSE_MEM_READ ||| JAILHOUSE_MEM_WRITE ||| JAILHOUSE_MEM_ROOTSHARED },
    { phys_start := start + 0x80000, virt_start := start + 0x80000, size := 0x40000,
      flags := JAILHOUSE_MEM_READ ||| (if dev_id == 0 then JAILHOUSE_MEM_WRITE else 0) |||
        JAILHOUSE_MEM_ROOTSHARED },
    { phys_start := start + 0xc0000, virt_start := start + 0xc0000, size := 0x40000,
      flags := JAILHOUSE_MEM_READ ||| (if dev_id == 1 then JAILHOUSE_MEM_WRITE else 0) |||
        JAILHOUSE_MEM_ROOTSHARED } ]

/-- RK3566/RK3568 board descriptor, embedded field by field from the board
file (`config` initialiser).  `vpci_irq_base` is `284 - 32`.  `num_irqs` is
`32 + 320`. -/
def rk3568_config : SystemDescriptor :=
  { flags := JAILHOUSE_SYS_VIRTUAL_DEBUG_CONSOLE
    hypervisor_memory :=
      { phys_start := 0x0a800000, virt_start := 0, size := 0x00200000, flags := 0 }
    debug_console :=
      { address := 0xfe660000, size := 0x00010000,
        type := JAILHOUSE_CON_TYPE_8250,
        flags := JAILHOUSE_CON_ACCESS_MMIO_BIT ||| JAILHOUSE_CON_REGDIST_4 }
    platform_info :=
      { pci_mmconfig_base := 0xf6c00000
        pci_mmconfig_end_bus := 0
        pci_is_virtual := 1
        pci_domain := 3
        arm :=
          { maintenance_irq := 25, gic_version := 3,
            gicd_base := 0xfd400000, gicr_base := 0xfd460000,
            gicc_base := 0, gich_base := 0, gicv_base := 0 }
        memguard :=
          { num_irqs := 32 + 320, hv_timer := 26, num_pmu_irq := 4,
            pmu_cpu_irq := [260, 261, 262, 263] } }
    vpci_irq_base := 284 - 32
    cpus := [0b1111]
    mem_regions :=
      [ { phys_start := 0x0aa00000, virt_start := 0x0aa00000, size := 0x10000,
          flags := JAILHOUSE_MEM_READ },
        { phys_start := 0x0aa10000, virt_start := 0x0aa10000, size := 0x10000,
          flags := JAILHOUSE_MEM_READ ||| JAILHOUSE_MEM_WRITE },
        { phys_start := 0x0aa20000, virt_start := 0x0aa20000, size := 0x10000,
          flags := JAILHOUSE_MEM_READ ||| JAILHOUSE_MEM_WRITE },
        { phys_start := 0x0aa30000, virt_start := 0x0aa30000, size := 0x10000,
          flags := JAILHOUSE_MEM_READ } ] ++
      JAILHOUSE_SHMEM_NET_REGIONS 0x0ab00000 0 ++
      [ { phys_start := 0x0b000000, virt_start := 0x0b000000, size := 0x05000000,
          flags := JAILHOUSE_MEM_READ ||| JAILHOUSE_MEM_WRITE },
        { phys_start := 0x00000000, virt_start := 0x00000000, size := 0x0a800000,
          flags := JAILHOUSE_MEM_READ ||| JAILHOUSE_MEM_WRITE |||
            JAILHOUSE_MEM_EXECUTE ||| JAILHOUSE_MEM_DMA },
        { phys_start := 0x10000000, virt_start := 0x10000000, size := 0xe0000000,
          flags := JAILHOUSE_MEM_READ ||| JAILHOUSE_MEM_WRITE |||
            JAILHOUSE_MEM_EXECUTE ||| JAILHOUSE_MEM_DMA },
        { phys_start := 0xf0000000, virt_start := 0xf0000000, size := 0x06c00000,
          flags := JAILHOUSE_MEM_READ ||| JAILHOUSE_MEM_WRITE |||
            JAILHOUSE_MEM_IO_BIT ||| JAILHOUSE_MEM_DMA },
        { phys_start := 0xfc000000, virt_start := 0xfc000000, size := 0x04000000,
          flags := JAILHOUSE_MEM_READ ||| JAILHOUSE_MEM_WRITE |||
            JAILHOUSE_MEM_IO_BIT ||| JAILHOUSE_MEM_DMA },
        { phys_start := 0x100000000, virt_start := 0x100000000, size := 0x110000000,
          flags := JAILHOUSE_MEM_READ ||| JAILHOUSE_MEM_WRITE |||
            JAILHOUSE_MEM_EXECUTE ||| JAILHOUSE_MEM_DMA },
        { phys_start := 0x300000000, virt_start := 0x300000000, size := 0xc0c00000,
          flags := JAILHOUSE_MEM_READ ||| JAILHOUSE_MEM_WRITE |||
            JAILHOUSE_MEM_IO_BIT ||| JAILHOUSE_MEM_DMA } ]
    irqchips :=
      [ { address := 0xfd400000, pin_base := 32,
          pin_bitmap := [0xffffffff, 0xffffffff, 0xffffffff, 0xffffffff] },
        { address := 0xfd400000, pin_base := 160,
          pin_bitmap := [0xffffffff, 0xffffffff, 0xffffffff, 0xffffffff] },
        { address := 0xfd400000, pin_base := 288,
          pin_bitmap := [0xffffffff, 0xffffffff, 0, 0] } ]
    pci_devices :=
      [ { type := JAILHOUSE_PCI_TYPE_IVSHMEM, domain := 3, bdf := 0 <<< 3,
          bar_mask := JAILHOUSE_IVSHMEM_BAR_MASK_INTX,
          shmem_regions_start := 0, shmem_dev_id := 0, shmem_peers := 2,
          shmem_protocol := JAILHOUSE_SHMEM_PROTO_UNDEFINED },
        { type := JAILHOUSE_PCI_TYPE_IVSHMEM, domain := 3, bdf := 1 <<< 3,
          bar_mask := JAILHOUSE_IVSHMEM_BAR_MASK_INTX,
          shmem_regions_start := 4, shmem_dev_id := 0, shmem_peers := 2,
          shmem_protocol := JAILHOUSE_SHMEM_PROTO_VETH } ] }

/-- ZynqMP KV260 board descriptor, embedded field by field from
`configs/arm64/zynqmp-kv260.c`.  The `mem_regions` array is declared with 24
entries but only 18 are initialised; the 6 trailing entries are
zero-initialised, exactly as in C, and are part of the declared
`num_memory_regions = ARRAY_SIZE(config.mem_regions) = 24`.  `pci_domain`
is `-1` in the source, stored as `0xffff` in the unsigned 16-bit field.
`vpci_irq_base` is `136 - 32`. -/
def zynqmp_kv260_config : SystemDescriptor :=
  { flags := JAILHOUSE_SYS_VIRTUAL_DEBUG_CONSOLE
    hypervisor_memory :=
      { phys_start := 0x7f000000, virt_start := 0, size := 0x01000000, flags := 0 }
    debug_console :=
      { address := 0xff010000, size := 0x1000,
        type := JAILHOUSE_CON_TYPE_XUARTPS,
        flags := JAILHOUSE_CON_ACCESS_MMIO_BIT ||| JAILHOUSE_CON_REGDIST_4 }
    platform_info :=
      { pci_mmconfig_base := 0xfc000000
        pci_mmconfig_end_bus := 0
        pci_is_virtual := 1
        pci_domain := 0xffff
        arm :=
          { maintenance_irq := 25, gic_version := 2,
            gicd_base := 0xf9010000, gicr_base := 0,
            gicc_base := 0xf902f000, gich_base := 0xf9040000,
            gicv_base := 0xf906f000 }
        memguard :=
          { num_irqs := 188, hv_timer := 26, num_pmu_irq := 4,
            pmu_cpu_irq := [175, 176, 177, 178] } }
    vpci_irq_base := 136 - 32
    cpus := [0xf]
    mem_regions :=
      JAILHOUSE_SHMEM_NET_REGIONS 0x060000000 0 ++
      JAILHOUSE_SHMEM_NET_REGIONS 0x060100000 0 ++
      [ { phys_start := 0xfd000000, virt_start := 0xfd000000, size := 0x03000000,
          flags := JAILHOUSE_MEM_READ ||| JAILHOUSE_MEM_WRITE ||| JAILHOUSE_MEM_IO_BIT },
        { phys_start := 0x0, virt_start := 0x0, size := 0x60000000,
          flags := JAILHOUSE_MEM_READ ||| JAILHOUSE_MEM_WRITE ||| JAILHOUSE_MEM_EXECUTE },
        { phys_start := 0x60200000, virt_start := 0x60200000, size := 0x1ee00000,
          flags := JAILHOUSE_MEM_READ ||| JAILHOUSE_MEM_WRITE ||| JAILHOUSE_MEM_EXECUTE },
        { phys_start := 0x800000000, virt_start := 0x800000000, size := 0x080000000,
          flags := JAILHOUSE_MEM_READ ||| JAILHOUSE_MEM_WRITE ||| JAILHOUSE_MEM_EXECUTE },
        { phys_start := 0x8000000000, virt_start := 0x8000000000, size := 0x1000000,
          flags := JAILHOUSE_MEM_READ ||| JAILHOUSE_MEM_WRITE ||| JAILHOUSE_MEM_IO_BIT },
        { phys_start := 0xffe00000, virt_start := 0xffe00000, size := 0xC0000,
          flags := JAILHOUSE_MEM_READ ||| JAILHOUSE_MEM_WRITE ||| JAILHOUSE_MEM_EXECUTE },
        { phys_start := 0x3ed00000, virt_start := 0x3ed00000, size := 0x40000,
          flags := JAILHOUSE_MEM_READ ||| JAILHOUSE_MEM_WRITE ||| JAILHOUSE_MEM_EXECUTE },
        { phys_start := 0x3ed40000, virt_start := 0x3ed40000, size := 0x40000,
          flags := JAILHOUSE_MEM_READ ||| JAILHOUSE_MEM_WRITE ||| JAILHOUSE_MEM_EXECUTE },
        { phys_start := 0xff9a0100, virt_start := 0xff9a0100, size := 0x100,
          flags := JAILHOUSE_MEM_READ ||| JAILHOUSE_MEM_WRITE ||| JAILHOUSE_MEM_EXECUTE },
        { phys_start := 0xff9a0200, virt_start := 0xff9a0200, size := 0x100,
          flags := JAILHOUSE_MEM_READ ||| JAILHOUSE_MEM_WRITE ||| JAILHOUSE_MEM_EXECUTE },
        { phys_start := 0, virt_start := 0, size := 0, flags := 0 },
        { phys_start := 0, virt_start := 0, size := 0, flags := 0 },
        { phys_start := 0, virt_start := 0, size := 0, flags := 0 },
        { phys_start := 0, virt_start := 0, size := 0, flags := 0 },
        { phys_start := 0, virt_start := 0, size := 0, flags := 0 },
        { phys_start := 0, virt_start := 0, size := 0, flags := 0 } ]
    irqchips :=
      [ { address := 0xf9010000, pin_base := 32,
          pin_bitmap := [0xffffffff, 0xffffffff, 0xffffffff, 0xffffffff] } ]
    pci_devices :=
      [ { type := JAILHOUSE_PCI_TYPE_IVSHMEM, domain := 1, bdf := 1 <<< 3,
          bar_mask := JAILHOUSE_IVSHMEM_BAR_MASK_INTX,
          shmem_regions_start := 0, shmem_dev_id := 0, shmem_peers := 2,
          shmem_protocol := JAILHOUSE_SHMEM_PROTO_VETH },
        { type := JAILHOUSE_PCI_TYPE_IVSHMEM, domain := 1, bdf := 2 <<< 3,
          bar_mask := JAILHOUSE_IVSHMEM_BAR_MASK_INTX,
          shmem_regions_start := 4, shmem_dev_id := 0, shmem_peers := 2,
          shmem_protocol := JAILHOUSE_SHMEM_PROTO_VETH } ] }

/-- Disjointness of the half-open address intervals `[s1, s1 + n1)` and
`[s2, s2 + n2)`; an empty interval is disjoint from everything. -/
def rangesDisjoint (s1 n1 s2 n2 : Nat) : Bool :=
  decide (s1 + n1 ≤ s2) || decide (s2 + n2 ≤ s1)

/-- Region carries the ROOTSHARED flag bit. -/
def MemoryRegion.rootshared (r : MemoryRegion) : Bool :=
  (r.flags &&& JAILHOUSE_MEM_ROOTSHARED) != 0

/-- Physical ranges of two regions are disjoint. -/
def regionsDisjointB (a b : MemoryRegion) : Bool :=
  rangesDisjoint a.phys_start a.size b.phys_start b.size

/-- Physical range of `a` contains the physical range of `b`. -/
def regionContainsB (a b : MemoryRegion) : Bool :=
  decide (a.phys_start ≤ b.phys_start) &&
    decide (b.phys_start + b.size ≤ a.phys_start + a.size)

/-- Boolean check that `p` holds of every unordered pair of distinct
positions of the list. -/
def pairwiseB {α : Type} (p : α → α → Bool) : List α → Bool
  | [] => true
  | x :: xs => xs.all (p x) && pairwiseB p xs

/-- Modelled from the spec: validator invariant 1.  Two physical ranges in
the descriptor (the hypervisor reservation together with every declared
region) may intersect only when both carry the ROOTSHARED flag. -/
def memOverlapOk (d : SystemDescriptor) : Bool :=
  pairwiseB (fun a b => regionsDisjointB a b || (a.rootshared && b.rootshared))
    (d.hypervisor_memory :: d.mem_regions)

/-- Weakened pairwise overlap rule: intersecting ranges are also tolerated
when one physical range contains the other (nested mappings of the same
cell, as the KV260 R5 TCM/DDR/proc regions inside the broad RAM and MMIO
regions). -/
def memOverlapOkAmended (d : SystemDescriptor) : Bool :=
  pairwiseB
    (fun a b => regionsDisjointB a b || (a.rootshared && b.rootshared) ||
      regionContainsB a b || regionContainsB b a)
    (d.hypervisor_memory :: d.mem_regions)

/-- Modelled from the spec: validator invariant 2.  The hypervisor memory
reservation is disjoint from every declared region. -/
def hypDisjointOk (d : SystemDescriptor) : Bool :=
  d.mem_regions.all fun r =>
    rangesDisjoint d.hypervisor_memory.phys_start d.hypervisor_memory.size
      r.phys_start r.size

/-- Modelled from the spec: non-emptiness, page alignment and
non-overflowing end address of one address range (validator invariant 8). -/
def addrRangeOk (s n : Nat) : Bool :=
  decide (0 < n) && decide (s % PAGE_SIZE = 0) && decide (n % PAGE_SIZE = 0) &&
    decide (s + n < 2 ^ 64)

/-- Modelled from the spec: a memory region's physical range is well formed
and its virtual start is page aligned as well. -/
def memRegionRangeOk (r : MemoryRegion) : Bool :=
  addrRangeOk r.phys_start r.size && decide (r.virt_start % PAGE_SIZE = 0)

/-- Modelled from the spec: the console window is a well-formed range. -/
def consoleRangeOk (c : Console) : Bool :=
  addrRangeOk c.address c.size

/-- Modelled from the spec: validator invariant 8 over the whole descriptor
(hypervisor reservation, console window, and every declared region). -/
def rangesOk (d : SystemDescriptor) : Bool :=
  addrRangeOk d.hypervisor_memory.phys_start d.hypervisor_memory.size &&
    consoleRangeOk d.debug_console &&
    d.mem_regions.all memRegionRangeOk

/-- Number of interrupt pins covered by a chip: 32 pins per bitmap word
(the fixed 4-word bitmap covers 128 pins). -/
def IrqChip.pin_count (c : IrqChip) : Nat :=
  32 * c.pin_bitmap.length

/-- Pin lies in the chip's covered range `[pin_base, pin_base + 128)`. -/
def IrqChip.coversPin (c : IrqChip) (pin : Nat) : Bool :=
  decide (c.pin_base ≤ pin) && decide (pin < c.pin_base + c.pin_count)

/-- Pin is marked as assigned in the chip's bitmap. -/
def IrqChip.claimsPin (c : IrqChip) (pin : Nat) : Bool :=
  c.coversPin pin &&
    Nat.testBit (c.pin_bitmap.getD ((pin - c.pin_base) / 32) 0)
      ((pin - c.pin_base) % 32)

/-- Modelled from the spec: first half of validator invariant 5, the covered
pin ranges of distinct chips do not overlap. -/
def irqRangesDisjointOk (d : SystemDescriptor) : Bool :=
  pairwiseB (fun a b => rangesDisjoint a.pin_base a.pin_count b.pin_base b.pin_count)
    d.irqchips

/-- Modelled from the spec: second half of validator invariant 5, every pin
marked in some chip's bitmap lies below the platform's declared interrupt
count. -/
def irqBudgetOk (d : SystemDescriptor) : Bool :=
  d.irqchips.all fun c =>
    (List.range c.pin_count).all fun off =>
      !(Nat.testBit (c.pin_bitmap.getD (off / 32) 0) (off % 32)) ||
        decide (c.pin_base + off < d.platform_info.memguard.num_irqs)

/-- Absolute interrupt number of virtual-PCI line `i` of the root cell:
`vpci_irq_base` counts from the first shared peripheral interrupt, 32 lines
above absolute zero, as the board comments state (`284 - 32`, `136 - 32`). -/
def vpciAbsoluteIrq (d : SystemDescriptor) (i : Nat) : Nat :=
  d.vpci_irq_base + 32 + i

/-- Modelled from the spec: budget half of validator invariant 6, the four
virtual-PCI interrupt lines stay below the platform's interrupt count. -/
def vpciBudgetOk (d : SystemDescriptor) : Bool :=
  decide (d.vpci_irq_base + 32 + 4 ≤ d.platform_info.memguard.num_irqs)

/-- Modelled from the spec: collision half of validator invariant 6, no
interrupt-chip pin range covers any of the four virtual-PCI lines. -/
def vpciNoCollisionOk (d : SystemDescriptor) : Bool :=
  d.irqchips.all fun c =>
    (List.range 4).all fun i => !(c.coversPin (vpciAbsoluteIrq d i))

/-- Modelled from the spec: validator invariant 6 as stated. -/
def vpciOk (d : SystemDescriptor) : Bool :=
  vpciBudgetOk d && vpciNoCollisionOk d

/-- Each of the four virtual-PCI lines is marked in some chip's bitmap,
i.e. the lines are granted to the root cell through its interrupt chips. -/
def vpciClaimedByCell (d : SystemDescriptor) : Bool :=
  (List.range 4).all fun i =>
    d.irqchips.any fun c => c.claimsPin (vpciAbsoluteIrq d i)

/-- Modelled from the spec: contiguous region count an IVSHMEM device
requires, `4 + 4 * (peers - 2)`; exactly 4 for a 2-peer link. -/
def ivshmemRegionCount (dev : PciDevice) : Nat :=
  4 + 4 * (dev.shmem_peers - 2)

/-- Modelled from the spec: validator invariant 3 for one device, the run of
`ivshmemRegionCount` regions starting at `shmem_regions_start` lies within
the `nRegions` declared regions. -/
def ivshmemOk (nRegions : Nat) (dev : PciDevice) : Bool :=
  !(dev.type == JAILHOUSE_PCI_TYPE_IVSHMEM) ||
    decide (dev.shmem_regions_start + ivshmemRegionCount dev ≤ nRegions)

/-- Modelled from the spec: validator invariant 3 over a descriptor. -/
def pciShmemOk (d : SystemDescriptor) : Bool :=
  d.pci_devices.all (ivshmemOk d.num_memory_regions)

/-- Modelled from the spec: validator invariant 4, `bdf` values are unique
within a `domain` (distinct devices never share both). -/
def bdfUniqueOk (ds : List PciDevice) : Bool :=
  pairwiseB (fun a b => !(a.domain == b.domain && a.bdf == b.bdf)) ds

/-- Every interrupt chip names the platform's GIC distributor base as its
controller address. -/
def gicdAddrOk (d : SystemDescriptor) : Bool :=
  d.irqchips.all fun c => c.address == d.platform_info.arm.gicd_base

/-- Size of the virtual PCI mmconfig window: the standard 1 MiB of
configuration space per bus, for buses `0 .. pci_mmconfig_end_bus`. -/
def mmconfigSize (d : SystemDescriptor) : Nat :=
  0x100000 * (d.platform_info.pci_mmconfig_end_bus + 1)

/-- Virtual PCI mmconfig window is disjoint from every declared region, so
accesses to it trap instead of hitting a passed-through mapping. -/
def mmconfigDisjointOk (d : SystemDescriptor) : Bool :=
  d.mem_regions.all fun r =>
    rangesDisjoint d.platform_info.pci_mmconfig_base (mmconfigSize d)
      r.phys_start r.size

/-- Modelled from the spec: the validator, the conjunction of invariants
1-6 and 8 (invariant 7 concerns the QoS device table, which is outside the
model).  `true` plays the role of the spec's `Ok(())`. -/
def validate (d : SystemDescriptor) : Bool :=
  memOverlapOk d && hypDisjointOk d && pciShmemOk d &&
    bdfUniqueOk d.pci_devices && irqRangesDisjointOk d && irqBudgetOk d &&
    vpciOk d && rangesOk d

/-- Claim C1, counterexample.  The ZynqMP KV260 region list does contain two
entries whose physical intervals intersect without both being ROOTSHARED:
entry 9 (the RAM region `[0x0, 0x60000000)`) and entry 14 (the R5 DDR0
region `[0x3ed00000, 0x3ed40000)`) intersect, neither carries ROOTSHARED,
and the whole-descriptor overlap check of invariant 1 fails on the
descriptor. -/
theorem c1_overlap_counterexample :
    memOverlapOk zynqmp_kv260_config = false ∧
    regionsDisjointB (zynqmp_kv260_config.mem_regions.getD 9 ⟨0, 0, 0, 0⟩)
      (zynqmp_kv260_config.mem_regions.getD 14 ⟨0, 0, 0, 0⟩) = false ∧
    (zynqmp_kv260_config.mem_regions.getD 9 ⟨0, 0, 0, 0⟩).rootshared = false ∧
    (zynqmp_kv260_config.mem_regions.getD 14 ⟨0, 0, 0, 0⟩).rootshared = false ∧
    (zynqmp_kv260_config.mem_regions.getD 9 ⟨0, 0, 0, 0⟩).phys_start = 0x0 ∧
    (zynqmp_kv260_config.mem_regions.getD 9 ⟨0, 0, 0, 0⟩).size = 0x60000000 ∧
    (zynqmp_kv260_config.mem_regions.getD 14 ⟨0, 0, 0, 0⟩).phys_start = 0x3ed00000 ∧
    (zynqmp_kv260_config.mem_regions.getD 14 ⟨0, 0, 0, 0⟩).size = 0x40000 := by
  decide

/-- Claim C1, amended.  No two physical ranges in either descriptor
(hypervisor reservation plus all declared regions) intersect unless both
carry ROOTSHARED or one range contains the other (the KV260 R5 TCM, DDR and
proc regions are nested inside the broad RAM and MMIO regions of the same
root cell); the RK3568 descriptor satisfies even the original rule with no
containment exemption. -/
theorem c1_overlap_amended :
    memOverlapOkAmended zynqmp_kv260_config = true ∧
    memOverlapOkAmended rk3568_config = true ∧
    memOverlapOk rk3568_config = true := by
  decide

/-- Claim C2, counterexample.  In both descriptors the four virtual-PCI
interrupts do collide with an interrupt-chip pin range: RK3568's absolute
vPCI interrupts start at 284 and fall in the second chip's range
`[160, 288)`, ZynqMP's start at 136 and fall in its single chip's range
`[32, 160)`, so invariant 6 as stated fails on both descriptors. -/
theorem c2_vpci_counterexample :
    vpciOk rk3568_config = false ∧
    vpciOk zynqmp_kv260_config = false ∧
    vpciAbsoluteIrq rk3568_config 0 = 284 ∧
    (rk3568_config.irqchips.getD 1 ⟨0, 0, []⟩).coversPin 284 = true ∧
    (rk3568_config.irqchips.getD 1 ⟨0, 0, []⟩).pin_base = 160 ∧
    vpciAbsoluteIrq zynqmp_kv260_config 0 = 136 ∧
    (zynqmp_kv260_config.irqchips.getD 0 ⟨0, 0, []⟩).coversPin 136 = true ∧
    (zynqmp_kv260_config.irqchips.getD 0 ⟨0, 0, []⟩).pin_base = 32 := by
  decide

/-- Claim C2, amended.  In both descriptors `vpci_irq_base` plus the four
virtual-PCI lines stays within the platform's interrupt budget, and each of
the four absolute vPCI interrupts lies inside an interrupt-chip pin range
and is marked in its bitmap -- the lines are granted to the root cell
through its chips rather than kept clear of them. -/
theorem c2_vpci_amended :
    vpciBudgetOk rk3568_config = true ∧
    vpciBudgetOk zynqmp_kv260_config = true ∧
    vpciClaimedByCell rk3568_config = true ∧
    vpciClaimedByCell zynqmp_kv260_config = true := by
  decide

/-- Claim C3, counterexample.  Not every entry of the KV260 region array is
non-empty and page aligned: entry 18 (first zero-initialised trailing
entry) has size 0, and entry 16 (the 0x100-byte R5 proc region at
0xff9a0100) is not aligned to the 4 KiB granularity, so the range check of
invariant 8 fails on the descriptor. -/
theorem c3_ranges_counterexample :
    rangesOk zynqmp_kv260_config = false ∧
    zynqmp_kv260_config.num_memory_regions = 24 ∧
    (zynqmp_kv260_config.mem_regions.getD 18 ⟨0, 0, 0, 0⟩).size = 0 ∧
    (zynqmp_kv260_config.mem_regions.getD 16 ⟨0, 0, 0, 0⟩).phys_start = 0xff9a0100 ∧
    (zynqmp_kv260_config.mem_regions.getD 16 ⟨0, 0, 0, 0⟩).size = 0x100 ∧
    memRegionRangeOk (zynqmp_kv260_config.mem_regions.getD 18 ⟨0, 0, 0, 0⟩) = false ∧
    memRegionRangeOk (zynqmp_kv260_config.mem_regions.getD 16 ⟨0, 0, 0, 0⟩) = false := by
  decide

/-- Claim C3, amended.  The RK3568 descriptor's ranges (hypervisor
reservation, console, all 15 regions) are non-empty, 4 KiB aligned and
non-overflowing; of the KV260's 24 declared entries the first 16 satisfy
the same, the two 0x100-byte R5 proc entries (16 and 17) are non-empty and
non-overflowing but sub-page-aligned, and the 6 zero-initialised trailing
entries have size 0; the KV260 console and hypervisor ranges are well
formed. -/
theorem c3_ranges_amended :
    rangesOk rk3568_config = true ∧
    ((zynqmp_kv260_config.mem_regions.take 16).all memRegionRangeOk) = true ∧
    ((zynqmp_kv260_config.mem_regions.take 18).all fun r =>
      decide (0 < r.size) && decide (r.phys_start + r.size < 2 ^ 64)) = true ∧
    ((zynqmp_kv260_config.mem_regions.drop 18).all fun r => r.size == 0) = true ∧
    (zynqmp_kv260_config.mem_regions.drop 18).length = 6 ∧
    (zynqmp_kv260_config.mem_regions.getD 17 ⟨0, 0, 0, 0⟩).size = 0x100 ∧
    addrRangeOk zynqmp_kv260_config.hypervisor_memory.phys_start
      zynqmp_kv260_config.hypervisor_memory.size = true ∧
    consoleRangeOk zynqmp_kv260_config.debug_console = true := by
  decide

/-- Claim C4.  In both descriptors the interrupt chips' covered pin ranges
are pairwise disjoint and every pin marked in a bitmap lies below the
platform's declared interrupt count: RK3568 has chips at pin bases 32, 160
and 288 (the third with only two bitmap words set, so its highest marked
pin is 351 with `num_irqs = 352`), ZynqMP a single chip at pin base 32
under `num_irqs = 188`. -/
theorem c4_irqchip_ranges :
    irqRangesDisjointOk rk3568_config = true ∧
    irqBudgetOk rk3568_config = true ∧
    rk3568_config.platform_info.memguard.num_irqs = 352 ∧
    (rk3568_config.irqchips.map (fun c => c.pin_base)) = [32, 160, 288] ∧
    irqRangesDisjointOk zynqmp_kv260_config = true ∧
    irqBudgetOk zynqmp_kv260_config = true := by
  decide

/-- Claim C5.  In both descriptors every IVSHMEM device with 2 peers
references a complete run of exactly 4 contiguous regions inside the
declared region count (starts 0 and 4, against 15 regions on RK3568 and 24
on the KV260), and the modelled invariant-3 check rejects a descriptor
offering only 3 regions to such a device. -/
theorem c5_ivshmem_regions :
    pciShmemOk rk3568_config = true ∧
    pciShmemOk zynqmp_kv260_config = true ∧
    (rk3568_config.pci_devices.map (fun p => p.shmem_regions_start)) = [0, 4] ∧
    (zynqmp_kv260_config.pci_devices.map (fun p => p.shmem_regions_start)) = [0, 4] ∧
    (rk3568_config.pci_devices.all fun p =>
      ivshmemRegionCount p == 4 && p.shmem_peers == 2) = true ∧
    (zynqmp_kv260_config.pci_devices.all fun p =>
      ivshmemRegionCount p == 4 && p.shmem_peers == 2) = true ∧
    ivshmemOk 3 (rk3568_config.pci_devices.getD 0
      ⟨0, 0, 0, 0, 0, 0, 0, 0⟩) = false := by
  decide

/-- Claim C6.  The hypervisor reservation is disjoint from every declared
region in both descriptors: ZynqMP's `[0x7f000000, 0x80000000)` (the
adjacent RAM region ends exactly at its start) and RK3568's
`[0x0a800000, 0x0aa00000)`. -/
theorem c6_hypervisor_disjoint :
    hypDisjointOk zynqmp_kv260_config = true ∧
    hypDisjointOk rk3568_config = true ∧
    zynqmp_kv260_config.hypervisor_memory.phys_start = 0x7f000000 ∧
    zynqmp_kv260_config.hypervisor_memory.size = 0x01000000 ∧
    rk3568_config.hypervisor_memory.phys_start = 0x0a800000 ∧
    rk3568_config.hypervisor_memory.size = 0x00200000 := by
  decide

/-- Claim C7.  `bdf` values are pairwise distinct within a domain in both
descriptors (KV260: domain 1 with `1 <<< 3` and `2 <<< 3`; RK3568: domain 3
with `0 <<< 3` and `1 <<< 3`); the modelled invariant-4 check rejects two
devices sharing domain and `bdf`, and accepts the same `bdf` in different
domains. -/
theorem c7_bdf_unique :
    bdfUniqueOk zynqmp_kv260_config.pci_devices = true ∧
    bdfUniqueOk rk3568_config.pci_devices = true ∧
    (zynqmp_kv260_config.pci_devices.map (fun p => (p.domain, p.bdf))) =
      [(1, 8), (1, 16)] ∧
    (rk3568_config.pci_devices.map (fun p => (p.domain, p.bdf))) =
      [(3, 0), (3, 8)] ∧
    bdfUniqueOk [⟨3, 1, 8, 0, 0, 0, 2, 0⟩, ⟨3, 1, 8, 0, 4, 0, 2, 0⟩] = false ∧
    bdfUniqueOk [⟨3, 1, 8, 0, 0, 0, 2, 0⟩, ⟨3, 2, 8, 0, 4, 0, 2, 0⟩] = true := by
  decide

/-- Claim C9.  Every interrupt chip's controller address equals the
platform's GIC distributor base in both descriptors: all three RK3568 chips
carry 0xfd400000 and the single KV260 chip carries 0xf9010000. -/
theorem c9_gicd_address :
    gicdAddrOk rk3568_config = true ∧
    gicdAddrOk zynqmp_kv260_config = true ∧
    rk3568_config.platform_info.arm.gicd_base = 0xfd400000 ∧
    (rk3568_config.irqchips.map (fun c => c.address)) =
      [0xfd400000, 0xfd400000, 0xfd400000] ∧
    zynqmp_kv260_config.platform_info.arm.gicd_base = 0xf9010000 ∧
    (zynqmp_kv260_config.irqchips.map (fun c => c.address)) = [0xf9010000] := by
  decide

/-- Claim C10.  The virtual PCI mmconfig window (1 MiB per bus up to
`pci_mmconfig_end_bus`) is disjoint from every declared region in both
descriptors: RK3568's base 0xf6c00000 sits exactly at the end of the first
I/O region and below the second at 0xfc000000, and the KV260's base
0xfc000000 lies below the MMIO region starting at 0xfd000000. -/
theorem c10_mmconfig_disjoint :
    mmconfigDisjointOk rk3568_config = true ∧
    mmconfigDisjointOk zynqmp_kv260_config = true ∧
    rk3568_config.platform_info.pci_mmconfig_base = 0xf6c00000 ∧
    zynqmp_kv260_config.platform_info.pci_mmconfig_base = 0xfc000000 ∧
    (rk3568_config.mem_regions.getD 11 ⟨0, 0, 0, 0⟩).phys_start +
      (rk3568_config.mem_regions.getD 11 ⟨0, 0, 0, 0⟩).size = 0xf6c00000 := by
  decide

/-- Decode failure kinds of the specification's decoder. -/
inductive DecodeError where
  | badSignature
  | unsupportedRevision
  | truncatedInput
  | countExceedsCapacity
deriving DecidableEq

/-- Modelled from the spec: descriptor signature constant
`JAILHOUSE_SYSTEM_SIGNATURE` ("JHSYST"), as the little-endian value of its
six bytes.  The byte string itself is not among the source files. -/
def JAILHOUSE_SYSTEM_SIGNATURE : Nat := 0x54535953484a

/-- Modelled from the spec: configuration revision constant
`JAILHOUSE_CONFIG_REVISION`; its numeric value is not among the source
files and a fixed value is chosen. -/
def JAILHOUSE_CONFIG_REVISION : Nat := 13

/-- Capacity ceiling of the decoder for the CPU-set array. -/
def CPUS_CAP : Nat := 32

/-- Capacity ceiling of the decoder for the region array. -/
def MEM_REGIONS_CAP : Nat := 64

/-- Capacity ceiling of the decoder for the interrupt-chip array. -/
def IRQCHIPS_CAP : Nat := 16

/-- Capacity ceiling of the decoder for the PCI-device array. -/
def PCI_DEVICES_CAP : Nat := 32

/-- Capacity ceiling of the decoder for the PMU interrupt list. -/
def PMU_IRQS_CAP : Nat := 8

/-- Little-endian fixed-width serialisation of `v` into `w` bytes. -/
def putU : Nat → Nat → List Nat
  | 0, _ => []
  | w + 1, v => v % 256 :: putU w (v / 256)

/-- Little-endian fixed-width deserialisation of `w` bytes. -/
def getU : Nat → List Nat → Except DecodeError (Nat × List Nat)
  | 0, bs => .ok (0, bs)
  | _ + 1, [] => .error .truncatedInput
  | w + 1, b :: bs =>
    match getU w bs with
    | .ok (v, rest) => .ok (b + 256 * v, rest)
    | .error e => .error e

/-- Sequencing of a parsing step with the rest of the parse. -/
def bindE {α β : Type} (x : Except DecodeError (α × List Nat))
    (f : α → List Nat → Except DecodeError (β × List Nat)) :
    Except DecodeError (β × List Nat) :=
  match x with
  | .ok (a, bs) => f a bs
  | .error e => .error e

/-- Serialisation of a list: 4-byte element count, then the elements. -/
def putListOf {α : Type} (put1 : α → List Nat) (xs : List α) : List Nat :=
  putU 4 xs.length ++ (xs.map put1).flatten

/-- Deserialisation of exactly `n` elements. -/
def getMany {α : Type} (get1 : List Nat → Except DecodeError (α × List Nat)) :
    Nat → List Nat → Except DecodeError (List α × List Nat)
  | 0, bs => .ok ([], bs)
  | n + 1, bs =>
    bindE (get1 bs) fun x bs =>
      bindE (getMany get1 n bs) fun xs bs => .ok (x :: xs, bs)

/-- Deserialisation of a counted list: the count is read first and checked
against the capacity ceiling `cap` before any payload is interpreted. -/
def getListOf {α : Type} (get1 : List Nat → Except DecodeError (α × List Nat))
    (cap : Nat) (bs : List Nat) : Except DecodeError (List α × List Nat) :=
  bindE (getU 4 bs) fun n bs =>
    if n ≤ cap then getMany get1 n bs else .error .countExceedsCapacity

/-- Serialisation of a memory region: four 8-byte fields. -/
def putMemoryRegion (r : MemoryRegion) : List Nat :=
  putU 8 r.phys_start ++ putU 8 r.virt_start ++ putU 8 r.size ++ putU 8 r.flags

/-- Deserialisation of a memory region. -/
def getMemoryRegion (bs : List Nat) : Except DecodeError (MemoryRegion × List Nat) :=
  bindE (getU 8 bs) fun p bs =>
    bindE (getU 8 bs) fun v bs =>
      bindE (getU 8 bs) fun s bs =>
        bindE (getU 8 bs) fun f bs => .ok (⟨p, v, s, f⟩, bs)

/-- Serialisation of the console record: 8-byte address, 4-byte size,
2-byte type and flags. -/
def putConsole (c : Console) : List Nat :=
  putU 8 c.address ++ putU 4 c.size ++ putU 2 c.type ++ putU 2 c.flags

/-- Deserialisation of the console record. -/
def getConsole (bs : List Nat) : Except DecodeError (Console × List Nat) :=
  bindE (getU 8 bs) fun a bs =>
    bindE (getU 4 bs) fun s bs =>
      bindE (getU 2 bs) fun t bs =>
        bindE (getU 2 bs) fun f bs => .ok (⟨a, s, t, f⟩, bs)

/-- Serialisation of an interrupt chip: 8-byte address, 4-byte pin base,
and the four 4-byte bitmap words with no count prefix (the bitmap is a
fixed-size array). -/
def putIrqChip (c : IrqChip) : List Nat :=
  putU 8 c.address ++ putU 4 c.pin_base ++ (c.pin_bitmap.map (putU 4)).flatten

/-- Deserialisation of an interrupt chip. -/
def getIrqChip (bs : List Nat) : Except DecodeError (IrqChip × List Nat) :=
  bindE (getU 8 bs) fun a bs =>
    bindE (getU 4 bs) fun pb bs =>
      bindE (getMany (getU 4) 4 bs) fun ws bs => .ok (⟨a, pb, ws⟩, bs)

/-- Serialisation of a PCI device: 1-byte type, 2-byte domain and bdf,
4-byte remaining fields. -/
def putPciDevice (p : PciDevice) : List Nat :=
  putU 1 p.type ++ putU 2 p.domain ++ putU 2 p.bdf ++ putU 4 p.bar_mask ++
    putU 4 p.shmem_regions_start ++ putU 4 p.shmem_dev_id ++
    putU 4 p.shmem_peers ++ putU 4 p.shmem_protocol

/-- Deserialisation of a PCI device. -/
def getPciDevice (bs : List Nat) : Except DecodeError (PciDevice × List Nat) :=
  bindE (getU 1 bs) fun t bs =>
    bindE (getU 2 bs) fun dom bs =>
      bindE (getU 2 bs) fun bdf bs =>
        bindE (getU 4 bs) fun bm bs =>
          bindE (getU 4 bs) fun rs bs =>
            bindE (getU 4 bs) fun di bs =>
              bindE (getU 4 bs) fun pe bs =>
                bindE (getU 4 bs) fun pr bs =>
                  .ok (⟨t, dom, bdf, bm, rs, di, pe, pr⟩, bs)

/-- Serialisation of the ARM GIC parameters: 1-byte interrupt and version
fields, 8-byte base addresses. -/
def putArmParams (a : ArmParams) : List Nat :=
  putU 1 a.maintenance_irq ++ putU 1 a.gic_version ++ putU 8 a.gicd_base ++
    putU 8 a.gicr_base ++ putU 8 a.gicc_base ++ putU 8 a.gich_base ++
    putU 8 a.gicv_base

/-- Deserialisation of the ARM GIC parameters. -/
def getArmParams (bs : List Nat) : Except DecodeError (ArmParams × List Nat) :=
  bindE (getU 1 bs) fun mi bs =>
    bindE (getU 1 bs) fun gv bs =>
      bindE (getU 8 bs) fun gd bs =>
        bindE (getU 8 bs) fun gr bs =>
          bindE (getU 8 bs) fun gc bs =>
            bindE (getU 8 bs) fun gh bs =>
              bindE (getU 8 bs) fun gvb bs =>
                .ok (⟨mi, gv, gd, gr, gc, gh, gvb⟩, bs)

/-- Serialisation of the memguard parameters: 4-byte scalar fields and the
counted PMU interrupt list. -/
def putMemguardParams (m : MemguardParams) : List Nat :=
  putU 4 m.num_irqs ++ putU 4 m.hv_timer ++ putU 4 m.num_pmu_irq ++
    putListOf (putU 4) m.pmu_cpu_irq

/-- Deserialisation of the memguard parameters. -/
def getMemguardParams (bs : List Nat) :
    Except DecodeError (MemguardParams × List Nat) :=
  bindE (getU 4 bs) fun ni bs =>
    bindE (getU 4 bs) fun ht bs =>
      bindE (getU 4 bs) fun np bs =>
        bindE (getListOf (getU 4) PMU_IRQS_CAP bs) fun ps bs =>
          .ok (⟨ni, ht, np, ps⟩, bs)

/-- Serialisation of the platform information block. -/
def putPlatformInfo (p : PlatformInfo) : List Nat :=
  putU 8 p.pci_mmconfig_base ++ putU 1 p.pci_mmconfig_end_bus ++
    putU 1 p.pci_is_virtual ++ putU 2 p.pci_domain ++
    putArmParams p.arm ++ putMemguardParams p.memguard

/-- Deserialisation of the platform information block. -/
def getPlatformInfo (bs : List Nat) :
    Except DecodeError (PlatformInfo × List Nat) :=
  bindE (getU 8 bs) fun mb bs =>
    bindE (getU 1 bs) fun eb bs =>
      bindE (getU 1 bs) fun iv bs =>
        bindE (getU 2 bs) fun dom bs =>
          bindE (getArmParams bs) fun arm bs =>
            bindE (getMemguardParams bs) fun mg bs =>
              .ok (⟨mb, eb, iv, dom, arm, mg⟩, bs)

/-- Modelled from the spec: the encoder, a fixed-width packed little-endian
layout mirroring the record shapes of the descriptor -- signature and
revision first, then the header scalars and records, then the counted
arrays with explicit element counts. -/
def encode (d : SystemDescriptor) : List Nat :=
  putU 6 JAILHOUSE_SYSTEM_SIGNATURE ++ putU 4 JAILHOUSE_CONFIG_REVISION ++
    putU 4 d.flags ++ putMemoryRegion d.hypervisor_memory ++
    putConsole d.debug_console ++ putPlatformInfo d.platform_info ++
    putU 4 d.vpci_irq_base ++ putListOf (putU 8) d.cpus ++
    putListOf putMemoryRegion d.mem_regions ++
    putListOf putIrqChip d.irqchips ++
    putListOf putPciDevice d.pci_devices

/-- Modelled from the spec: the decoder; it verifies the signature and
revision and checks every array count against its capacity ceiling before
interpreting payload bytes. -/
def decode (bs : List Nat) : Except DecodeError SystemDescriptor :=
  match
    bindE (getU 6 bs) fun sig bs =>
      if sig = JAILHOUSE_SYSTEM_SIGNATURE then
        bindE (getU 4 bs) fun rev bs =>
          if rev = JAILHOUSE_CONFIG_REVISION then
            bindE (getU 4 bs) fun fl bs =>
              bindE (getMemoryRegion bs) fun hyp bs =>
                bindE (getConsole bs) fun con bs =>
                  bindE (getPlatformInfo bs) fun pi bs =>
                    bindE (getU 4 bs) fun vpci bs =>
                      bindE (getListOf (getU 8) CPUS_CAP bs) fun cpus bs =>
                        bindE (getListOf getMemoryRegion MEM_REGIONS_CAP bs)
                            fun mrs bs =>
                          bindE (getListOf getIrqChip IRQCHIPS_CAP bs)
                              fun ics bs =>
                            bindE (getListOf getPciDevice PCI_DEVICES_CAP bs)
                                fun pds bs =>
                              .ok ((⟨fl, hyp, con, pi, vpci, cpus, mrs, ics,
                                pds⟩ : SystemDescriptor), bs)
          else .error .unsupportedRevision
      else .error .badSignature
  with
  | .ok (d, _) => .ok d
  | .error e => .error e

/-- Field-width well-formedness of a memory region: every field fits its
8-byte slot. -/
def memRegionWf (r : MemoryRegion) : Prop :=
  r.phys_start < 256 ^ 8 ∧ r.virt_start < 256 ^ 8 ∧
    r.size < 256 ^ 8 ∧ r.flags < 256 ^ 8

instance (r : MemoryRegion) : Decidable (memRegionWf r) := by
  unfold memRegionWf; infer_instance

/-- Field-width well-formedness of the console record. -/
def consoleWf (c : Console) : Prop :=
  c.address < 256 ^ 8 ∧ c.size < 256 ^ 4 ∧ c.type < 256 ^ 2 ∧ c.flags < 256 ^ 2

instance (c : Console) : Decidable (consoleWf c) := by
  unfold consoleWf; infer_instance

/-- Field-width well-formedness of an interrupt chip, including the fixed
4-word shape of its bitmap. -/
def irqChipWf (c : IrqChip) : Prop :=
  c.address < 256 ^ 8 ∧ c.pin_base < 256 ^ 4 ∧
    c.pin_bitmap.length = 4 ∧ ∀ w ∈ c.pin_bitmap, w < 256 ^ 4

instance (c : IrqChip) : Decidable (irqChipWf c) := by
  unfold irqChipWf; infer_instance

/-- Field-width well-formedness of a PCI device. -/
def pciDeviceWf (p : PciDevice) : Prop :=
  p.type < 256 ^ 1 ∧ p.domain < 256 ^ 2 ∧ p.bdf < 256 ^ 2 ∧
    p.bar_mask < 256 ^ 4 ∧ p.shmem_regions_start < 256 ^ 4 ∧
    p.shmem_dev_id < 256 ^ 4 ∧ p.shmem_peers < 256 ^ 4 ∧
    p.shmem_protocol < 256 ^ 4

instance (p : PciDevice) : Decidable (pciDeviceWf p) := by
  unfold pciDeviceWf; infer_instance

/-- Field-width well-formedness of the ARM GIC parameters. -/
def armParamsWf (a : ArmParams) : Prop :=
  a.maintenance_irq < 256 ^ 1 ∧ a.gic_version < 256 ^ 1 ∧
    a.gicd_base < 256 ^ 8 ∧ a.gicr_base < 256 ^ 8 ∧ a.gicc_base < 256 ^ 8 ∧
    a.gich_base < 256 ^ 8 ∧ a.gicv_base < 256 ^ 8

instance (a : ArmParams) : Decidable (armParamsWf a) := by
  unfold armParamsWf; infer_instance

/-- Field-width well-formedness of the memguard parameters, including the
capacity bound of the PMU interrupt list. -/
def memguardParamsWf (m : MemguardParams) : Prop :=
  m.num_irqs < 256 ^ 4 ∧ m.hv_timer < 256 ^ 4 ∧ m.num_pmu_irq < 256 ^ 4 ∧
    m.pmu_cpu_irq.length ≤ PMU_IRQS_CAP ∧ ∀ i ∈ m.pmu_cpu_irq, i < 256 ^ 4

instance (m : MemguardParams) : Decidable (memguardParamsWf m) := by
  unfold memguardParamsWf; infer_instance

/-- Field-width well-formedness of the platform information block. -/
def platformInfoWf (p : PlatformInfo) : Prop :=
  p.pci_mmconfig_base < 256 ^ 8 ∧ p.pci_mmconfig_end_bus < 256 ^ 1 ∧
    p.pci_is_virtual < 256 ^ 1 ∧ p.pci_domain < 256 ^ 2 ∧
    armParamsWf p.arm ∧ memguardParamsWf p.memguard

instance (p : PlatformInfo) : Decidable (platformInfoWf p) := by
  unfold platformInfoWf; infer_instance

/-- Structural well-formedness of a descriptor: every field fits its
fixed-width slot (the `u64`/`u32`/`u16`/`u8` typing of the C records) and
every array respects the decoder's capacity ceiling. -/
def descWf (d : SystemDescriptor) : Prop :=
  d.flags < 256 ^ 4 ∧ memRegionWf d.hypervisor_memory ∧
    consoleWf d.debug_console ∧ platformInfoWf d.platform_info ∧
    d.vpci_irq_base < 256 ^ 4 ∧
    d.cpus.length ≤ CPUS_CAP ∧ (∀ c ∈ d.cpus, c < 256 ^ 8) ∧
    d.mem_regions.length ≤ MEM_REGIONS_CAP ∧
    (∀ r ∈ d.mem_regions, memRegionWf r) ∧
    d.irqchips.length ≤ IRQCHIPS_CAP ∧ (∀ c ∈ d.irqchips, irqChipWf c) ∧
    d.pci_devices.length ≤ PCI_DEVICES_CAP ∧
    ∀ p ∈ d.pci_devices, pciDeviceWf p

instance (d : SystemDescriptor) : Decidable (descWf d) := by
  unfold descWf; infer_instance

/-- Reading back `w` little-endian bytes of a value below `256 ^ w` returns
the value and leaves the remaining input untouched. -/
theorem getU_putU (w v : Nat) (h : v < 256 ^ w) (rest : List Nat) :
    getU w (putU w v ++ rest) = .ok (v, rest) := by
  induction w generalizing v with
  | zero =>
    have hv : v = 0 := by simpa using h
    subst hv
    simp [putU, getU]
  | succ w ih =>
    have hv : v / 256 < 256 ^ w := by
      rw [Nat.div_lt_iff_lt_mul (by norm_num : (0:Nat) < 256)]
      rw [pow_succ] at h
      exact h
    simp only [putU, List.cons_append, getU, List.append_eq]
    rw [ih (v / 256) hv]
    simp [Nat.mod_add_div]

/-- Sequencing after a successful parse runs the continuation. -/
theorem bindE_ok {α β : Type} (a : α) (bs : List Nat)
    (f : α → List Nat → Except DecodeError (β × List Nat)) :
    bindE (.ok (a, bs)) f = f a bs := rfl

/-- Reading back exactly the elements that were written, given that each
element parses back to itself. -/
theorem getMany_put {α : Type} (put1 : α → List Nat)
    (get1 : List Nat → Except DecodeError (α × List Nat)) (xs : List α)
    (H : ∀ x ∈ xs, ∀ rest, get1 (put1 x ++ rest) = .ok (x, rest))
    (rest : List Nat) :
    getMany get1 xs.length ((xs.map put1).flatten ++ rest) = .ok (xs, rest) := by
  induction xs generalizing rest with
  | nil => simp [getMany]
  | cons x xs ih =>
    have hx := H x (by simp) ((xs.map put1).flatten ++ rest)
    have H' : ∀ y ∈ xs, ∀ r, get1 (put1 y ++ r) = .ok (y, r) :=
      fun y hy => H y (by simp [hy])
    simp only [List.map_cons, List.flatten_cons, List.length_cons,
      List.append_assoc, getMany]
    rw [hx]
    simp only [bindE]
    rw [ih H' rest]

/-- Reading back a counted list that was written, provided the list
respects the capacity ceiling and the ceiling fits the count field. -/
theorem getListOf_put {α : Type} (put1 : α → List Nat)
    (get1 : List Nat → Except DecodeError (α × List Nat)) (cap : Nat)
    (xs : List α) (hc : cap < 256 ^ 4) (hlen : xs.length ≤ cap)
    (H : ∀ x ∈ xs, ∀ rest, get1 (put1 x ++ rest) = .ok (x, rest))
    (rest : List Nat) :
    getListOf get1 cap (putListOf put1 xs ++ rest) = .ok (xs, rest) := by
  have hxs : xs.length < 256 ^ 4 := lt_of_le_of_lt hlen hc
  simp only [getListOf, putListOf, List.append_assoc]
  rw [getU_putU 4 xs.length hxs]
  simp only [bindE, if_pos hlen]
  exact getMany_put put1 get1 xs H rest

/-- Memory-region record round trip. -/
theorem getMemoryRegion_put (r : MemoryRegion) (h : memRegionWf r)
    (rest : List Nat) :
    getMemoryRegion (putMemoryRegion r ++ rest) = .ok (r, rest) := by
  obtain ⟨h1, h2, h3, h4⟩ := h
  simp only [putMemoryRegion, List.append_assoc, getMemoryRegion]
  rw [getU_putU 8 _ h1]
  simp only [bindE]
  rw [getU_putU 8 _ h2]
  simp only [bindE]
  rw [getU_putU 8 _ h3]
  simp only [bindE]
  rw [getU_putU 8 _ h4]

/-- Console record round trip. -/
theorem getConsole_put (c : Console) (h : consoleWf c) (rest : List Nat) :
    getConsole (putConsole c ++ rest) = .ok (c, rest) := by
  obtain ⟨h1, h2, h3, h4⟩ := h
  simp only [putConsole, List.append_assoc, getConsole]
  rw [getU_putU 8 _ h1]
  simp only [bindE]
  rw [getU_putU 4 _ h2]
  simp only [bindE]
  rw [getU_putU 2 _ h3]
  simp only [bindE]
  rw [getU_putU 2 _ h4]

/-- Interrupt-chip record round trip. -/
theorem getIrqChip_put (c : IrqChip) (h : irqChipWf c) (rest : List Nat) :
    getIrqChip (putIrqChip c ++ rest) = .ok (c, rest) := by
  obtain ⟨h1, h2, h3, h4⟩ := h
  have H : ∀ w ∈ c.pin_bitmap, ∀ r, getU 4 (putU 4 w ++ r) = .ok (w, r) :=
    fun w hw r => getU_putU 4 w (h4 w hw) r
  have hm := getMany_put (putU 4) (getU 4) c.pin_bitmap H rest
  rw [h3] at hm
  simp only [putIrqChip, List.append_assoc, getIrqChip]
  rw [getU_putU 8 _ h1]
  simp only [bindE]
  rw [getU_putU 4 _ h2]
  simp only [bindE]
  rw [hm]

/-- PCI-device record round trip. -/
theorem getPciDevice_put (p : PciDevice) (h : pciDeviceWf p)
    (rest : List Nat) :
    getPciDevice (putPciDevice p ++ rest) = .ok (p, rest) := by
  obtain ⟨h1, h2, h3, h4, h5, h6, h7, h8⟩ := h
  simp only [putPciDevice, List.append_assoc, getPciDevice]
  rw [getU_putU 1 _ h1]
  simp only [bindE]
  rw [getU_putU 2 _ h2]
  simp only [bindE]
  rw [getU_putU 2 _ h3]
  simp only [bindE]
  rw [getU_putU 4 _ h4]
  simp only [bindE]
  rw [getU_putU 4 _ h5]
  simp only [bindE]
  rw [getU_putU 4 _ h6]
  simp only [bindE]
  rw [getU_putU 4 _ h7]
  simp only [bindE]
  rw [getU_putU 4 _ h8]

/-- ARM-parameter record round trip. -/
theorem getArmParams_put (a : ArmParams) (h : armParamsWf a)
    (rest : List Nat) :
    getArmParams (putArmParams a ++ rest) = .ok (a, rest) := by
  obtain ⟨h1, h2, h3, h4, h5, h6, h7⟩ := h
  simp only [putArmParams, List.append_assoc, getArmParams]
  rw [getU_putU 1 _ h1]
  simp only [bindE]
  rw [getU_putU 1 _ h2]
  simp only [bindE]
  rw [getU_putU 8 _ h3]
  simp only [bindE]
  rw [getU_putU 8 _ h4]
  simp only [bindE]
  rw [getU_putU 8 _ h5]
  simp only [bindE]
  rw [getU_putU 8 _ h6]
  simp only [bindE]
  rw [getU_putU 8 _ h7]

/-- Memguard-parameter record round trip. -/
theorem getMemguardParams_put (m : MemguardParams) (h : memguardParamsWf m)
    (rest : List Nat) :
    getMemguardParams (putMemguardParams m ++ rest) = .ok (m, rest) := by
  obtain ⟨h1, h2, h3, h4, h5⟩ := h
  have H : ∀ i ∈ m.pmu_cpu_irq, ∀ r, getU 4 (putU 4 i ++ r) = .ok (i, r) :=
    fun i hi r => getU_putU 4 i (h5 i hi) r
  simp only [putMemguardParams, List.append_assoc, getMemguardParams]
  rw [getU_putU 4 _ h1]
  simp only [bindE]
  rw [getU_putU 4 _ h2]
  simp only [bindE]
  rw [getU_putU 4 _ h3]
  simp only [bindE]
  rw [getListOf_put (putU 4) (getU 4) PMU_IRQS_CAP m.pmu_cpu_irq
    (by decide) h4 H rest]

/-- Platform-information record round trip. -/
theorem getPlatformInfo_put (p : PlatformInfo) (h : platformInfoWf p)
    (rest : List Nat) :
    getPlatformInfo (putPlatformInfo p ++ rest) = .ok (p, rest) := by
  obtain ⟨h1, h2, h3, h4, h5, h6⟩ := h
  simp only [putPlatformInfo, List.append_assoc, getPlatformInfo]
  rw [getU_putU 8 _ h1]
  simp only [bindE]
  rw [getU_putU 1 _ h2]
  simp only [bindE]
  rw [getU_putU 1 _ h3]
  simp only [bindE]
  rw [getU_putU 2 _ h4]
  simp only [bindE]
  rw [getArmParams_put p.arm h5]
  simp only [bindE]
  rw [getMemguardParams_put p.memguard h6]

set_option maxHeartbeats 1600000 in
/-- Claim C8.  Round-trip law of the modelled codec: decoding the encoding
of any structurally well-formed descriptor that passes the validator yields
the descriptor back exactly. -/
theorem c8_roundtrip (d : SystemDescriptor) (hw : descWf d)
    (hv : validate d = true) : decode (encode d) = Except.ok d := by
  obtain ⟨h1, h2, h3, h4, h5, h6, h7, h8, h9, h10, h11, h12, h13⟩ := hw
  have Hcpu : ∀ c ∈ d.cpus, ∀ r, getU 8 (putU 8 c ++ r) = .ok (c, r) :=
    fun c hc r => getU_putU 8 c (h7 c hc) r
  have Hmr : ∀ x ∈ d.mem_regions, ∀ r,
      getMemoryRegion (putMemoryRegion x ++ r) = .ok (x, r) :=
    fun x hx r => getMemoryRegion_put x (h9 x hx) r
  have Hic : ∀ x ∈ d.irqchips, ∀ r,
      getIrqChip (putIrqChip x ++ r) = .ok (x, r) :=
    fun x hx r => getIrqChip_put x (h11 x hx) r
  have Hpc : ∀ x ∈ d.pci_devices, ∀ r,
      getPciDevice (putPciDevice x ++ r) = .ok (x, r) :=
    fun x hx r => getPciDevice_put x (h13 x hx) r
  simp only [encode, decode, List.append_assoc]
  rw [getU_putU 6 _ (by decide)]
  simp only [bindE, if_pos rfl]
  rw [getU_putU 4 _ (by decide)]
  simp only [bindE, if_pos rfl]
  rw [getU_putU 4 _ h1]
  simp only [bindE]
  rw [getMemoryRegion_put d.hypervisor_memory h2]
  simp only [bindE]
  rw [getConsole_put d.debug_console h3]
  simp only [bindE]
  rw [getPlatformInfo_put d.platform_info h4]
  simp only [bindE]
  rw [getU_putU 4 _ h5]
  simp only [bindE]
  rw [getListOf_put (putU 8) (getU 8) CPUS_CAP d.cpus
    (by decide) h6 Hcpu]
  simp only [bindE]
  rw [getListOf_put putMemoryRegion getMemoryRegion MEM_REGIONS_CAP
    d.mem_regions (by decide) h8 Hmr]
  simp only [bindE]
  rw [getListOf_put putIrqChip getIrqChip IRQCHIPS_CAP d.irqchips
    (by decide) h10 Hic]
  simp only [bindE]
  rw [show putListOf putPciDevice d.pci_devices =
      putListOf putPciDevice d.pci_devices ++ ([] : List Nat) from
    (List.append_nil _).symm]
  rw [getListOf_put putPciDevice getPciDevice PCI_DEVICES_CAP d.pci_devices
    (by decide) h12 Hpc []]
  simp

/-- Minimal descriptor passing both the structural bounds and the modelled
validator: one CPU, one page-aligned region away from the hypervisor
reservation, no interrupt chips and no PCI devices, a 64-interrupt budget
with the virtual-PCI lines inside it. -/
def tinyDescriptor : SystemDescriptor :=
  { flags := 1
    hypervisor_memory :=
      { phys_start := 0x10000, virt_start := 0, size := 0x1000, flags := 0 }
    debug_console := { address := 0x20000, size := 0x1000, type := 1, flags := 1 }
    platform_info :=
      { pci_mmconfig_base := 0x40000000
        pci_mmconfig_end_bus := 0
        pci_is_virtual := 1
        pci_domain := 0
        arm :=
          { maintenance_irq := 25, gic_version := 2, gicd_base := 0x30000000,
            gicr_base := 0, gicc_base := 0, gich_base := 0, gicv_base := 0 }
        memguard :=
          { num_irqs := 64, hv_timer := 26, num_pmu_irq := 0, pmu_cpu_irq := [] } }
    vpci_irq_base := 0
    cpus := [1]
    mem_regions :=
      [ { phys_start := 0x100000, virt_start := 0x100000, size := 0x1000,
          flags := JAILHOUSE_MEM_READ } ]
    irqchips := []
    pci_devices := [] }

/-- Claim C8, witness: the round-trip law applied to a concrete descriptor
whose hypotheses hold by evaluation. -/
theorem c8_roundtrip_witness :
    descWf tinyDescriptor ∧ validate tinyDescriptor = true ∧
      decode (encode tinyDescriptor) = Except.ok tinyDescriptor :=
  ⟨by decide, by decide, c8_roundtrip tinyDescriptor (by decide) (by decide)⟩

end Jailhouse
